import Mathlib

/-
Verification of the solar-phase daemon (mqtt_sun).

Shallow embedding of src/main.rs.  IEEE f64 arithmetic is modelled over the
real numbers; the special float values that the claims mention (NaN and the
two infinities) are modelled by an explicit extended type `F64`, because the
Rust cast `f64 as i8` gives them specific results (NaN becomes 0, the
infinities saturate to the i8 bounds).  Machine-integer casts (`as i8`,
`as i64`, `as u64`) are modelled with explicit saturation / wrapping.
-/

open Real

namespace MqttSun

/-- The ten phases of `enum SunPosition` in src/main.rs. -/
inductive SunPosition
  | Night
  | AstronomicalDawn
  | NauticalDawn
  | CivilDawn
  | Sunrise
  | Sunset
  | CivilDusk
  | NauticalDusk
  | AstronomicalDusk
  | SolarNoon
  deriving DecidableEq, Repr

/-- Truncation toward zero of a real number, the rounding used by Rust
numeric casts from f64 (for values within range). -/
noncomputable def truncR (x : ℝ) : ℤ :=
  if 0 ≤ x then ⌊x⌋ else -⌊-x⌋

/-- Computable counterpart of `truncR` on the rationals, used to evaluate
the model at concrete inputs. -/
def truncQ (q : ℚ) : ℤ :=
  if 0 ≤ q then ⌊q⌋ else -⌊-q⌋

/-- The Rust saturating cast `f64 as i8` on a finite value: truncate toward
zero and clamp into [-128, 127]. -/
noncomputable def satI8R (x : ℝ) : ℤ :=
  max (-128) (min 127 (truncR x))

/-- Computable counterpart of `satI8R` on the rationals. -/
def satI8Q (q : ℚ) : ℤ :=
  max (-128) (min 127 (truncQ q))

/-- The Rust saturating cast `f64 as i64` on a finite value. -/
noncomputable def i64ofF64 (x : ℝ) : ℤ :=
  max (-(2 ^ 63)) (min (2 ^ 63 - 1) (truncR x))

/-- The Rust wrapping cast `i64 as u64` (two's-complement reinterpretation),
as a natural number. -/
def u64ofI64 (z : ℤ) : ℕ :=
  (z % (2 ^ 64)).toNat

/-- A model of IEEE f64 values: NaN, the two infinities, and finite values
(the latter idealized as exact reals). -/
inductive F64
  | nan
  | inf
  | ninf
  | fin (x : ℝ)

/-- Rust `f64::to_radians`: multiply by pi / 180 (degrees to radians). -/
noncomputable def toRadians (d : ℝ) : ℝ := d * (Real.pi / 180)

/-- Rust `f64::to_degrees`: multiply by 180 / pi (radians to degrees). -/
noncomputable def toDegrees (r : ℝ) : ℝ := r * (180 / Real.pi)

/-- Rust `f64::to_degrees` lifted to the extended float model.  NaN and the
infinities are preserved by the multiplication; finite values stay finite
(overflow to infinity cannot occur for the magnitudes considered here). -/
noncomputable def toDegreesF : F64 → F64
  | .nan => .nan
  | .inf => .inf
  | .ninf => .ninf
  | .fin x => .fin (toDegrees x)

/-- The Rust saturating cast `f64 as i8` on the extended float model:
NaN maps to 0, the infinities saturate to the i8 bounds. -/
noncomputable def f64asI8 : F64 → ℤ
  | .nan => 0
  | .inf => 127
  | .ninf => -128
  | .fin x => satI8R x

/-- The integer-degree bucketing of the classifier: the two `match` arms of
`impl From<(f64, bool)> for SunPosition`, after the `as i8` cast. -/
def bucket (a : ℤ) (is_morning : Bool) : SunPosition :=
  if is_morning then
    if -18 ≤ a ∧ a ≤ -13 then .AstronomicalDawn
    else if -12 ≤ a ∧ a ≤ -7 then .NauticalDawn
    else if -6 ≤ a ∧ a ≤ -1 then .CivilDawn
    else if 0 ≤ a ∧ a ≤ 90 then .Sunrise
    else .Night
  else
    if -18 ≤ a ∧ a ≤ -13 then .AstronomicalDusk
    else if -12 ≤ a ∧ a ≤ -7 then .NauticalDusk
    else if -6 ≤ a ∧ a ≤ -1 then .CivilDusk
    else if 0 ≤ a ∧ a ≤ 90 then .Sunset
    else .Night

/-- The Phase Classifier, `impl From<(f64, bool)> for SunPosition`: the
input angle (radians, an f64) is converted with `to_degrees`, cast with
`as i8`, and bucketed. -/
noncomputable def sunPositionFrom (angle : F64) (is_morning : Bool) : SunPosition :=
  bucket (f64asI8 (toDegreesF angle)) is_morning

/-- The classifier on an already-converted degree value (the composition of
the `as i8` cast and the bucketing); `sunPositionFrom` is this function
applied to `to_degrees` of its input. -/
noncomputable def classifyDeg (d : ℝ) (is_morning : Bool) : SunPosition :=
  bucket (satI8R d) is_morning

/-- Computable counterpart of `classifyDeg` on rational degree values. -/
def classifyDegQ (q : ℚ) (is_morning : Bool) : SunPosition :=
  bucket (satI8Q q) is_morning

-- Basic bridges between the real-valued model and its rational evaluator.

theorem truncR_ratCast (q : ℚ) : truncR (q : ℝ) = truncQ q := by
  unfold truncR truncQ
  by_cases h : (0 : ℚ) ≤ q
  · rw [if_pos (by exact_mod_cast h), if_pos h, Rat.floor_cast]
  · rw [if_neg (by exact_mod_cast h), if_neg h, ← Rat.cast_neg, Rat.floor_cast]

theorem satI8R_ratCast (q : ℚ) : satI8R (q : ℝ) = satI8Q q := by
  unfold satI8R satI8Q
  rw [truncR_ratCast]

theorem classifyDeg_ratCast (q : ℚ) (m : Bool) :
    classifyDeg (q : ℝ) m = classifyDegQ q m := by
  unfold classifyDeg classifyDegQ
  rw [satI8R_ratCast]

/-- The degree-to-radian round trip cancels exactly over the reals, so the
classifier applied to a radian value of the form d * pi / 180 buckets the
degree value d. -/
theorem sunPositionFrom_deg (q : ℚ) (m : Bool) :
    sunPositionFrom (.fin ((q : ℝ) * (Real.pi / 180))) m = classifyDegQ q m := by
  have h : toDegrees ((q : ℝ) * (Real.pi / 180)) = (q : ℝ) := by
    unfold toDegrees
    field_simp
  simp only [sunPositionFrom, toDegreesF, f64asI8, h, satI8R_ratCast]
  rfl

/-! ### Noon predictor (today_solar_noon) -/

/-- A proleptic Gregorian calendar date, as used by chrono and by the astro
crate date structure. -/
structure CalDate where
  year : ℤ
  month : ℤ
  day : ℤ

/-- Modelled from the spec: "Convert the calendar date to a Julian day number
(Gregorian calendar)".  The conversion itself is performed by the external
astro crate (astro::time::julian_day, the standard Meeus formula at 0h). -/
def julian_day (c : CalDate) : ℚ :=
  let y : ℤ := if c.month ≤ 2 then c.year - 1 else c.year
  let m : ℤ := if c.month ≤ 2 then c.month + 12 else c.month
  let a : ℤ := ⌊(y : ℚ) / 100⌋
  let b : ℤ := 2 - a + ⌊(a : ℚ) / 4⌋
  ((⌊(365.25 : ℚ) * ((y : ℚ) + 4716)⌋ : ℚ) + (⌊(30.6001 : ℚ) * ((m : ℚ) + 1)⌋ : ℚ)
    + (c.day : ℚ) + (b : ℚ)) - 1524.5

/-- Modelled from the spec: "then to Julian centuries since J2000.0"
(astro::time::julian_cent, an external crate). -/
def julian_cent (jd : ℚ) : ℚ := (jd - 2451545) / 36525

/-- date_to_julian from src/main.rs: the Julian day of the current (local)
calendar date. -/
def date_to_julian (c : CalDate) : ℚ := julian_day c

/-- The Julian-century value today_jul_century computed in today_solar_noon. -/
def today_jul_century (c : CalDate) : ℚ := julian_cent (date_to_julian c)

/-- The Rust f64 remainder operator a % b: remainder of truncated division,
with the sign of the dividend. -/
noncomputable def rustRem (a b : ℝ) : ℝ := a - b * (truncR (a / b) : ℝ)

/-- sun_long in today_solar_noon: geometric mean longitude of the sun,
reduced with the Rust % operator by 360. -/
noncomputable def sun_long (T : ℝ) : ℝ :=
  rustRem (280.46646 + T * (36000.76983 + T * 0.0003032)) 360

/-- sun_anom in today_solar_noon: geometric mean anomaly of the sun. -/
noncomputable def sun_anom (T : ℝ) : ℝ :=
  357.52911 + T * (35999.05029 - 0.0001537 * T)

/-- eccent_eart_orbit in today_solar_noon: orbital eccentricity of Earth. -/
noncomputable def eccent_eart_orbit (T : ℝ) : ℝ :=
  0.016708634 - T * (0.000042037 + 0.0000001267 * T)

/-- mean_obliq_ecliptic_corr in today_solar_noon: mean obliquity of the
ecliptic (degrees/minutes/seconds polynomial) plus the nutation correction
term. -/
noncomputable def mean_obliq_ecliptic_corr (T : ℝ) : ℝ :=
  23 + (26 + (21.448 - T * (46.815 + T * (0.00059 - T * 0.001813))) / 60) / 60
    + 0.00256 * Real.cos (toRadians (125.04 - 1934.136 * T))

/-- var_y in today_solar_noon: tan squared of half the corrected obliquity. -/
noncomputable def var_y (T : ℝ) : ℝ :=
  (Real.tan (toRadians (mean_obliq_ecliptic_corr T / 2))) ^ 2

/-- eq_of_time in today_solar_noon, exactly as written in the source.  Note
that the fourth summand multiplies by the bare angle 4 * sun_long (in
radians) rather than by its sine. -/
noncomputable def eq_of_time (T : ℝ) : ℝ :=
  4 * toDegrees (var_y T * Real.sin (2 * toRadians (sun_long T))
    - 2 * eccent_eart_orbit T * Real.sin (toRadians (sun_anom T))
    + 4 * eccent_eart_orbit T * var_y T * Real.sin (toRadians (sun_anom T))
        * Real.cos (2 * toRadians (sun_long T))
    - 0.5 * (var_y T) ^ 2 * (4 * toRadians (sun_long T))
    - 1.25 * (eccent_eart_orbit T) ^ 2 * Real.sin (2 * toRadians (sun_anom T)))

/-- Modelled from the spec: the reference standard NOAA five-term equation
of time, whose fourth term is 0.5 * y ^ 2 * sin(4 * mean longitude); it
differs from eq_of_time only in taking the sine of that angle. -/
noncomputable def eq_of_time_noaa (T : ℝ) : ℝ :=
  4 * toDegrees (var_y T * Real.sin (2 * toRadians (sun_long T))
    - 2 * eccent_eart_orbit T * Real.sin (toRadians (sun_anom T))
    + 4 * eccent_eart_orbit T * var_y T * Real.sin (toRadians (sun_anom T))
        * Real.cos (2 * toRadians (sun_long T))
    - 0.5 * (var_y T) ^ 2 * Real.sin (4 * toRadians (sun_long T))
    - 1.25 * (eccent_eart_orbit T) ^ 2 * Real.sin (2 * toRadians (sun_anom T)))

/-- Modelled from the spec: "local calendar midnight (UTC epoch seconds for
the date)" — chrono's naive date difference from 1970-01-01 in whole days,
times 86400 seconds (the Julian day of 1970-01-01 is 2440587.5). -/
def midnightEpochSecs (c : CalDate) : ℤ :=
  86400 * ⌊julian_day c - (2440587.5 : ℚ)⌋

/-- today_solar_noon from src/main.rs: epoch seconds of predicted solar noon
for the given (local) date at the configured longitude. -/
noncomputable def today_solar_noon (c : CalDate) (long : ℝ) : ℤ :=
  let T : ℝ := ((today_jul_century c : ℚ) : ℝ)
  let solar_noon_after : ℝ := (720 - 4 * long - eq_of_time T) / 1440
  midnightEpochSecs c + i64ofF64 (solar_noon_after * 24 * 3600)

/-! ### Transition loop (the body of fn main) -/

/-- The mutable loop state of fn main: old_sun_pos and time_of_noon. -/
structure LoopState where
  old_sun_pos : Option SunPosition
  time_of_noon : Option ℤ
  deriving DecidableEq

/-- The ambient inputs consumed by one loop iteration: the result of
reading the system clock (epoch seconds; none models the Err case of
duration_since), the local wall-clock hour, the altitude returned by
sun::pos (radians), and the current local calendar date. -/
structure TickInput where
  time : Option ℕ
  hour : ℕ
  altitude : F64
  today : CalDate

/-- Outcome of each MQTT publish attempted during the tick (true means the
broker accepted it); the loop only logs failures, so these flags must not
influence state or attempts. -/
structure PubFlags where
  noonOk : Bool
  telemetryOk : Bool
  transitionOk : Bool

/-- Flags recording that every publish succeeded. -/
def allOk : PubFlags := ⟨true, true, true⟩

/-- The publishes a tick can attempt: the one-shot SolarNoon event on topic
sun, the altitude telemetry on topic sun/info (payload is the altitude
converted to degrees), and a phase transition event on topic sun. -/
inductive Evt
  | noon
  | telemetry (deg : F64)
  | transition (p : SunPosition)

/-- Recognizer for the SolarNoon one-shot publish. -/
def Evt.isNoon : Evt → Bool
  | .noon => true
  | _ => false

/-- Recognizer for the telemetry publish. -/
def Evt.isTelemetry : Evt → Bool
  | .telemetry _ => true
  | _ => false

/-- Recognizer for a phase transition publish. -/
def Evt.isTransition : Evt → Bool
  | .transition _ => true
  | _ => false

/-- The result of one loop iteration: the updated state, the publishes
attempted in order, the number of publish failures logged, and whether the
iteration ended in the 60-second sleep. -/
structure TickOut where
  state : LoopState
  attempts : List Evt
  errors : ℕ
  sleep : Bool

/-- The noon-check condition at the start of a tick: a pending instant
exists and the current epoch second has passed it (the code compares the
u64 clock reading against the i64 instant cast to u64). -/
def noonFires (pending : Option ℤ) (now : ℕ) : Bool :=
  match pending with
  | some v => decide (now > u64ofI64 v)
  | none => false

/-- The classification computed by the tick: morning means local hour at
most 12. -/
noncomputable def tickPhase (i : TickInput) : SunPosition :=
  sunPositionFrom i.altitude (decide (i.hour ≤ 12))

/-- One iteration of the loop in fn main.  If reading the clock fails the
whole body is skipped (and no sleep is reached).  Otherwise: fire a pending
noon whose instant has passed, publish telemetry unconditionally, classify,
and either deduplicate (sleep 60 seconds) or publish the transition,
predict noon on Sunrise, and continue immediately. -/
noncomputable def tick (long : ℝ) (s : LoopState) (i : TickInput) (f : PubFlags) : TickOut :=
  match i.time with
  | none => ⟨s, [], 0, false⟩
  | some now =>
    if s.old_sun_pos = some (tickPhase i) then
      ⟨⟨s.old_sun_pos, if noonFires s.time_of_noon now then none else s.time_of_noon⟩,
        (if noonFires s.time_of_noon now then [Evt.noon] else [])
          ++ [Evt.telemetry (toDegreesF i.altitude)],
        (if noonFires s.time_of_noon now && !f.noonOk then 1 else 0)
          + (if f.telemetryOk then 0 else 1),
        true⟩
    else
      ⟨⟨some (tickPhase i),
          if tickPhase i = SunPosition.Sunrise then some (today_solar_noon i.today long)
          else if noonFires s.time_of_noon now then none else s.time_of_noon⟩,
        (if noonFires s.time_of_noon now then [Evt.noon] else [])
          ++ [Evt.telemetry (toDegreesF i.altitude)] ++ [Evt.transition (tickPhase i)],
        (if noonFires s.time_of_noon now && !f.noonOk then 1 else 0)
          + (if f.telemetryOk then 0 else 1)
          + (if f.transitionOk then 0 else 1),
        false⟩

/-- Iterated ticks: run the loop over a list of per-iteration inputs,
returning the final state and all publish attempts in order. -/
noncomputable def runLoop (long : ℝ) (f : PubFlags) :
    LoopState → List TickInput → LoopState × List Evt
  | s, [] => (s, [])
  | s, i :: rest =>
    let o := tick long s i f
    let r := runLoop long f o.state rest
    (r.1, o.attempts ++ r.2)

/-! ### Helper lemmas -/

theorem truncR_gt (x : ℝ) : x - 1 < (truncR x : ℝ) := by
  unfold truncR
  split_ifs with h
  · have := Int.sub_one_lt_floor x
    linarith
  · have := Int.floor_le (-x)
    push_cast
    linarith

theorem truncR_lt (x : ℝ) : (truncR x : ℝ) < x + 1 := by
  unfold truncR
  split_ifs with h
  · have := Int.floor_le x
    linarith
  · have := Int.sub_one_lt_floor (-x)
    push_cast
    linarith

theorem bucket_ne_solarNoon (a : ℤ) (m : Bool) :
    bucket a m ≠ SunPosition.SolarNoon := by
  unfold bucket
  split_ifs <;> simp

theorem sunPositionFrom_ne_solarNoon (a : F64) (m : Bool) :
    sunPositionFrom a m ≠ SunPosition.SolarNoon :=
  bucket_ne_solarNoon _ m

/-! ### C1 — out-of-range altitudes and the Night bucket -/

/-- C1 counterexample: an altitude of -18.5 degrees is strictly less than
-18 degrees, yet the classifier returns AstronomicalDawn, not Night
(truncation toward zero maps (-19, -18] to the integer degree -18); and
90.5 degrees is strictly greater than 90 yet classifies as Sunrise. -/
theorem c1_night_counterexample :
    ((-18.5 : ℝ) < -18 ∧ classifyDeg (-18.5) true ≠ SunPosition.Night) ∧
    ((90.5 : ℝ) > 90 ∧ classifyDeg 90.5 true ≠ SunPosition.Night) := by
  refine ⟨⟨by norm_num, ?_⟩, ⟨by norm_num, ?_⟩⟩
  · rw [show ((-18.5 : ℝ)) = ((-37/2 : ℚ) : ℝ) by norm_num, classifyDeg_ratCast]
    norm_num [classifyDegQ, satI8Q, truncQ, bucket]
    decide
  · rw [show ((90.5 : ℝ)) = ((181/2 : ℚ) : ℝ) by norm_num, classifyDeg_ratCast]
    norm_num [classifyDegQ, satI8Q, truncQ, bucket]
    decide

/-- C1 amended: for every altitude of at most -19 degrees or at least 91
degrees (so that the truncated integer degree falls outside [-18, 90]),
the classifier returns Night regardless of is_morning. -/
theorem c1_night_amended (d : ℝ) (h : d ≤ -19 ∨ 91 ≤ d) (m : Bool) :
    classifyDeg d m = SunPosition.Night := by
  have hb : satI8R d ≤ -19 ∨ 91 ≤ satI8R d := by
    rcases h with h | h
    · left
      have h0 : ¬ (0 : ℝ) ≤ d := by linarith
      have h19 : (19 : ℤ) ≤ ⌊-d⌋ := Int.le_floor.2 (by push_cast; linarith)
      unfold satI8R truncR
      rw [if_neg h0]
      omega
    · right
      have h0 : (0 : ℝ) ≤ d := by linarith
      have h91 : (91 : ℤ) ≤ ⌊d⌋ := Int.le_floor.2 (by push_cast; linarith)
      unfold satI8R truncR
      rw [if_pos h0]
      omega
  unfold classifyDeg
  generalize satI8R d = a at hb
  unfold bucket
  split_ifs <;> first | rfl | omega

/-- C1 amended witness at the concrete altitude -20 degrees. -/
theorem c1_night_amended_witness :
    ((-20 : ℝ) ≤ -19 ∨ 91 ≤ (-20 : ℝ)) ∧ classifyDeg (-20) true = SunPosition.Night :=
  ⟨Or.inl (by norm_num), c1_night_amended (-20) (Or.inl (by norm_num)) true⟩

/-! ### C3 — the classifier input is an angle in radians -/

/-- C3: the classifier interprets its input as radians: on every finite
input it buckets the degree conversion x * 180 / pi against the integer
table (it equals the degree-level classifier applied to to_degrees of the
input), and it does not bucket x itself: at the radian input
-12 * pi / 180 the classifier yields NauticalDawn while bucketing the raw
value would yield Sunrise.  In the tick model the classifier receives the
raw altitude while the telemetry publish carries the degree-converted
value. -/
theorem c3_radians_input :
    (∀ (x : ℝ) (m : Bool),
        sunPositionFrom (.fin x) m = classifyDeg (toDegrees x) m) ∧
    sunPositionFrom (.fin ((-12 : ℝ) * (Real.pi / 180))) true = SunPosition.NauticalDawn ∧
    classifyDeg ((-12 : ℝ) * (Real.pi / 180)) true = SunPosition.Sunrise := by
  refine ⟨fun x m => rfl, ?_, ?_⟩
  · have h := sunPositionFrom_deg (-12) true
    rw [show (((-12 : ℚ) : ℝ)) = (-12 : ℝ) by norm_num] at h
    rw [h]
    norm_num [classifyDegQ, satI8Q, truncQ, bucket]
  · have hval : ((-12 : ℝ)) * (Real.pi / 180) = -(Real.pi / 15) := by ring
    have h0 : ¬ (0 : ℝ) ≤ -(Real.pi / 15) := by
      simp only [not_le, neg_neg, neg_lt_zero]
      positivity
    have hfl : ⌊-(-(Real.pi / 15))⌋ = 0 := by
      rw [neg_neg]
      rw [Int.floor_eq_zero_iff]
      constructor
      · positivity
      · have := Real.pi_le_four
        norm_num
        linarith
    unfold classifyDeg satI8R truncR
    rw [hval, if_neg h0, hfl]
    norm_num [bucket]

/-! ### C10 — NaN and infinite altitudes -/

/-- C10: a NaN altitude classifies as Sunrise in the morning and Sunset in
the evening, because the f64-to-i8 cast sends NaN to 0 (the 0..=90
bucket); positive and negative infinity saturate to 127 and -128 and both
classify as Night for either flag. -/
theorem c10_nan_inf_classification :
    sunPositionFrom .nan true = SunPosition.Sunrise ∧
    sunPositionFrom .nan false = SunPosition.Sunset ∧
    (∀ m : Bool, sunPositionFrom .inf m = SunPosition.Night) ∧
    (∀ m : Bool, sunPositionFrom .ninf m = SunPosition.Night) ∧
    f64asI8 (toDegreesF .nan) = 0 ∧
    f64asI8 (toDegreesF .inf) = 127 ∧
    f64asI8 (toDegreesF .ninf) = -128 := by
  refine ⟨?_, ?_, fun m => ?_, fun m => ?_, rfl, rfl, rfl⟩
  · show bucket 0 true = _
    norm_num [bucket]
  · show bucket 0 false = _
    norm_num [bucket]
  · show bucket 127 m = _
    cases m <;> norm_num [bucket]
  · show bucket (-128) m = _
    cases m <;> norm_num [bucket]

/-! ### C4 — clock-read failure skips the tick -/

/-- C4 counterexample: on a tick whose clock read fails, the loop does not
perform the normal 60-second sleep before the next tick: the skipped
iteration falls straight through (sleep is false at this concrete input),
contrary to the claim that the loop proceeds only after the normal sleep. -/
theorem c4_no_sleep_counterexample :
    (tick 0 ⟨some SunPosition.Night, none⟩ ⟨none, 6, .fin 0, ⟨2026, 10, 12⟩⟩
      allOk).sleep ≠ true :=
  fun h => Bool.false_ne_true h

/-- C4 amended: when reading the current time fails, the tick is skipped
with no mutation of old_sun_pos or time_of_noon, no publish attempted and
no error logged, and the loop proceeds immediately to the next tick
without sleeping (the 60-second sleep is reached only on the
deduplication branch of a successful tick). -/
theorem c4_clock_failure_amended (long : ℝ) (s : LoopState) (hr : ℕ) (a : F64)
    (d : CalDate) (f : PubFlags) :
    tick long s ⟨none, hr, a, d⟩ f = ⟨s, [], 0, false⟩ := rfl

/-! ### C9 — publish failures are non-fatal -/

/-- C9: publish outcomes never influence the next state, the list of
attempted publishes or the sleeping decision of a tick (failures are only
logged); concretely, on a tick transitioning from Night to CivilDawn whose
transition publish fails, the state still commits old_sun_pos to
CivilDawn, the transition is attempted exactly once (no retry), and one
error is logged. -/
theorem c9_publish_failure_nonfatal :
    (∀ (long : ℝ) (s : LoopState) (i : TickInput) (f g : PubFlags),
      (tick long s i f).state = (tick long s i g).state ∧
      (tick long s i f).attempts = (tick long s i g).attempts ∧
      (tick long s i f).sleep = (tick long s i g).sleep) ∧
    ((tick 0 ⟨some SunPosition.Night, none⟩
        ⟨some 5, 6, .fin (((-5 : ℚ) : ℝ) * (Real.pi / 180)), ⟨2026, 10, 12⟩⟩
        ⟨true, true, false⟩).state = ⟨some SunPosition.CivilDawn, none⟩ ∧
     (tick 0 ⟨some SunPosition.Night, none⟩
        ⟨some 5, 6, .fin (((-5 : ℚ) : ℝ) * (Real.pi / 180)), ⟨2026, 10, 12⟩⟩
        ⟨true, true, false⟩).attempts.countP (fun e => e.isTransition) = 1 ∧
     (tick 0 ⟨some SunPosition.Night, none⟩
        ⟨some 5, 6, .fin (((-5 : ℚ) : ℝ) * (Real.pi / 180)), ⟨2026, 10, 12⟩⟩
        ⟨true, true, false⟩).errors = 1) := by
  constructor
  · intro long s i f g
    rcases i with ⟨time, hr, a, d⟩
    cases time with
    | none => exact ⟨rfl, rfl, rfl⟩
    | some t =>
      by_cases h : s.old_sun_pos = some (tickPhase ⟨some t, hr, a, d⟩) <;>
        simp [tick, h]
  · have hc : tickPhase ⟨some 5, 6, .fin (((-5 : ℚ) : ℝ) * (Real.pi / 180)),
        ⟨2026, 10, 12⟩⟩ = SunPosition.CivilDawn := by
      show sunPositionFrom (.fin (((-5 : ℚ) : ℝ) * (Real.pi / 180))) (decide ((6 : ℕ) ≤ 12)) = _
      rw [show (decide ((6 : ℕ) ≤ 12)) = true from rfl, sunPositionFrom_deg]
      norm_num [classifyDegQ, satI8Q, truncQ, bucket]
    norm_num at hc
    refine ⟨?_, ?_, ?_⟩ <;>
      simp [tick, hc, noonFires, List.countP_cons, Evt.isTransition]

/-! ### C6 — the one-shot noon event -/

/-- C6: when a pending noon instant exists and the clock reading of the
tick has passed it, the tick publishes SolarNoon exactly once, as its very
first publish (the noon check runs before telemetry and before phase
re-evaluation), and the pending instant does not survive the tick except
when the same tick transitions to Sunrise and stores a fresh prediction;
a tick that starts with no pending instant never publishes SolarNoon, and
the classifier can never produce SolarNoon as a transition payload. -/
theorem c6_solar_noon_once :
    (∀ (long : ℝ) (s : LoopState) (i : TickInput) (f : PubFlags) (v : ℤ) (now : ℕ),
      s.time_of_noon = some v → i.time = some now → u64ofI64 v < now →
      (tick long s i f).attempts.countP (fun e => e.isNoon) = 1 ∧
      (tick long s i f).attempts.head? = some Evt.noon ∧
      ((tick long s i f).state.time_of_noon = none ∨
        tickPhase i = SunPosition.Sunrise)) ∧
    (∀ (long : ℝ) (s : LoopState) (i : TickInput) (f : PubFlags),
      s.time_of_noon = none →
      (tick long s i f).attempts.countP (fun e => e.isNoon) = 0) ∧
    (∀ (a : F64) (m : Bool), sunPositionFrom a m ≠ SunPosition.SolarNoon) := by
  refine ⟨?_, ?_, fun a m => sunPositionFrom_ne_solarNoon a m⟩
  · intro long s i f v now hv hnow hlt
    rcases i with ⟨time, hr, a, d⟩
    simp only [TickInput.time] at hnow
    subst hnow
    have hf : noonFires s.time_of_noon now = true := by
      rw [hv]
      simp [noonFires, hlt]
    by_cases h : s.old_sun_pos = some (tickPhase ⟨some now, hr, a, d⟩)
    · simp [tick, h, hf, List.countP_cons, Evt.isNoon, Evt.isTelemetry]
    · refine ⟨?_, ?_, ?_⟩
      · simp [tick, h, hf, List.countP_cons, Evt.isNoon]
      · simp [tick, h, hf]
      · by_cases hs : tickPhase ⟨some now, hr, a, d⟩ = SunPosition.Sunrise
        · exact Or.inr hs
        · exact Or.inl (by simp [tick, h, hf, hs])
  · intro long s i f hv
    rcases i with ⟨time, hr, a, d⟩
    cases time with
    | none => simp [tick]
    | some now =>
      have hf : noonFires s.time_of_noon now = false := by
        rw [hv]
        simp [noonFires]
      by_cases h : s.old_sun_pos = some (tickPhase ⟨some now, hr, a, d⟩) <;>
        simp [tick, h, hf, List.countP_cons, Evt.isNoon]

/-- C6 witness: a concrete firing tick (pending instant 100, clock 101)
publishes SolarNoon exactly once. -/
theorem c6_solar_noon_once_witness :
    ((⟨some SunPosition.Sunrise, some 100⟩ : LoopState).time_of_noon = some 100 ∧
      u64ofI64 100 < 101) ∧
    (tick 0 ⟨some SunPosition.Sunrise, some 100⟩
        ⟨some 101, 13, .fin 0, ⟨2026, 10, 12⟩⟩ allOk).attempts.countP
      (fun e => e.isNoon) = 1 := by
  refine ⟨⟨rfl, by norm_num [u64ofI64]⟩, ?_⟩
  exact (c6_solar_noon_once.1 0 ⟨some SunPosition.Sunrise, some 100⟩
    ⟨some 101, 13, .fin 0, ⟨2026, 10, 12⟩⟩ allOk 100 101 rfl rfl
    (by norm_num [u64ofI64])).1

/-! ### C7 — unconditional telemetry and deduplicated transitions -/

/-- The six-tick scenario of the spec: altitude samples whose degree values
are -30, -30, -5, -5, 5, 5, with the first five ticks in the morning and
the last one in the evening, so that the classifications are Night, Night,
CivilDawn, CivilDawn, Sunrise, Sunset. -/
noncomputable def scenarioInputs : List TickInput :=
  [⟨some 0, 6, .fin (((-30 : ℚ) : ℝ) * (Real.pi / 180)), ⟨2026, 10, 12⟩⟩,
   ⟨some 0, 6, .fin (((-30 : ℚ) : ℝ) * (Real.pi / 180)), ⟨2026, 10, 12⟩⟩,
   ⟨some 0, 6, .fin (((-5 : ℚ) : ℝ) * (Real.pi / 180)), ⟨2026, 10, 12⟩⟩,
   ⟨some 0, 6, .fin (((-5 : ℚ) : ℝ) * (Real.pi / 180)), ⟨2026, 10, 12⟩⟩,
   ⟨some 0, 6, .fin (((5 : ℚ) : ℝ) * (Real.pi / 180)), ⟨2026, 10, 12⟩⟩,
   ⟨some 0, 18, .fin (((5 : ℚ) : ℝ) * (Real.pi / 180)), ⟨2026, 10, 12⟩⟩]

/-- C7: every successful tick attempts exactly one telemetry publish,
carrying the degree-converted altitude, and attempts a transition publish
exactly when the classified phase differs from old_sun_pos; over the
six-tick scenario classifying as Night, Night, CivilDawn, CivilDawn,
Sunrise, Sunset (starting with Night current), exactly 3 transition events
are published — CivilDawn, Sunrise, Sunset — and telemetry is published on
all 6 ticks. -/
theorem c7_telemetry_and_dedup :
    (∀ (long : ℝ) (s : LoopState) (t hr : ℕ) (a : F64) (d : CalDate) (f : PubFlags),
      (tick long s ⟨some t, hr, a, d⟩ f).attempts.countP (fun e => e.isTelemetry) = 1 ∧
      Evt.telemetry (toDegreesF a) ∈ (tick long s ⟨some t, hr, a, d⟩ f).attempts ∧
      (tick long s ⟨some t, hr, a, d⟩ f).attempts.countP (fun e => e.isTransition) =
        (if s.old_sun_pos = some (tickPhase ⟨some t, hr, a, d⟩) then 0 else 1)) ∧
    ((runLoop 0 allOk ⟨some SunPosition.Night, none⟩ scenarioInputs).2.filter
        (fun e => e.isTransition) =
      [Evt.transition SunPosition.CivilDawn, Evt.transition SunPosition.Sunrise,
        Evt.transition SunPosition.Sunset] ∧
     (runLoop 0 allOk ⟨some SunPosition.Night, none⟩ scenarioInputs).2.countP
        (fun e => e.isTelemetry) = 6) := by
  constructor
  · intro long s t hr a d f
    by_cases h : s.old_sun_pos = some (tickPhase ⟨some t, hr, a, d⟩) <;>
      cases hf : noonFires s.time_of_noon t <;>
      simp [tick, h, hf, List.countP_cons, List.countP_append, Evt.isTelemetry,
        Evt.isTransition, Evt.isNoon]
  · have h30 : sunPositionFrom (.fin (((-30 : ℚ) : ℝ) * (Real.pi / 180))) true
        = SunPosition.Night := by
      rw [sunPositionFrom_deg]
      norm_num [classifyDegQ, satI8Q, truncQ, bucket]
    have h5d : sunPositionFrom (.fin (((-5 : ℚ) : ℝ) * (Real.pi / 180))) true
        = SunPosition.CivilDawn := by
      rw [sunPositionFrom_deg]
      norm_num [classifyDegQ, satI8Q, truncQ, bucket]
    have h5r : sunPositionFrom (.fin (((5 : ℚ) : ℝ) * (Real.pi / 180))) true
        = SunPosition.Sunrise := by
      rw [sunPositionFrom_deg]
      norm_num [classifyDegQ, satI8Q, truncQ, bucket]
    have h5s : sunPositionFrom (.fin (((5 : ℚ) : ℝ) * (Real.pi / 180))) false
        = SunPosition.Sunset := by
      rw [sunPositionFrom_deg]
      norm_num [classifyDegQ, satI8Q, truncQ, bucket]
    have hnf : ∀ z : ℤ, noonFires (some z) 0 = false := by
      intro z
      simp [noonFires]
    norm_num at h30 h5d h5r h5s
    constructor <;>
      simp [runLoop, scenarioInputs, tick, tickPhase, noonFires, hnf, h30, h5d, h5r,
        h5s, List.countP_cons, List.countP_append, Evt.isTelemetry, Evt.isTransition,
        Evt.isNoon, List.filter]

/-! ### Bounds on the astronomical quantities, for dates within a century
of J2000.0 (Julian-century values T with |T| at most 1) -/

theorem rustRem_abs_lt (a : ℝ) {b : ℝ} (hb : 0 < b) : |rustRem a b| < b := by
  unfold rustRem
  have h1 := truncR_gt (a / b)
  have h2 := truncR_lt (a / b)
  have hba : b * (a / b) = a := mul_div_cancel₀ a (ne_of_gt hb)
  rw [abs_lt]
  constructor
  · nlinarith [mul_lt_mul_of_pos_left h2 hb]
  · nlinarith [mul_lt_mul_of_pos_left h1 hb]

theorem eccent_bounds (T : ℝ) (hT : |T| ≤ 1) :
    0.0166 ≤ eccent_eart_orbit T ∧ eccent_eart_orbit T ≤ 0.0168 := by
  obtain ⟨h1, h2⟩ := abs_le.1 hT
  unfold eccent_eart_orbit
  constructor <;> nlinarith [sq_nonneg T, sq_nonneg (T - 1), sq_nonneg (T + 1)]

theorem obliq_bounds (T : ℝ) (hT : |T| ≤ 1) :
    23.4 ≤ mean_obliq_ecliptic_corr T ∧ mean_obliq_ecliptic_corr T ≤ 23.46 := by
  obtain ⟨h1, h2⟩ := abs_le.1 hT
  have hc1 := Real.neg_one_le_cos (toRadians (125.04 - 1934.136 * T))
  have hc2 := Real.cos_le_one (toRadians (125.04 - 1934.136 * T))
  have hsq : T ^ 2 ≤ 1 := by nlinarith
  have hcube1 : -1 ≤ T ^ 3 := by nlinarith [sq_nonneg (T + 1), sq_nonneg T]
  have hcube2 : T ^ 3 ≤ 1 := by nlinarith [sq_nonneg (T - 1), sq_nonneg T]
  unfold mean_obliq_ecliptic_corr
  constructor <;> nlinarith [sq_nonneg T]

theorem varY_window (T : ℝ) (hT : |T| ≤ 1) :
    0 < var_y T ∧ var_y T ≤ 0.05 := by
  have hob := obliq_bounds T hT
  have hπ1 := Real.pi_gt_3141592
  have hπ2 := Real.pi_lt_3141593
  have hx1 : (0.2 : ℝ) ≤ toRadians (mean_obliq_ecliptic_corr T / 2) := by
    unfold toRadians
    nlinarith [hob.1, hob.2]
  have hx2 : toRadians (mean_obliq_ecliptic_corr T / 2) ≤ 0.205 := by
    unfold toRadians
    nlinarith [hob.1, hob.2]
  set x := toRadians (mean_obliq_ecliptic_corr T / 2) with hxdef
  have hcos : (0.97 : ℝ) ≤ Real.cos x := by
    have h := Real.one_sub_sq_div_two_le_cos (x := x)
    nlinarith
  have hcpos : (0 : ℝ) < Real.cos x := by linarith
  have hsin_le : Real.sin x ≤ x := le_of_lt (Real.sin_lt (by linarith))
  have hsin_pos : 0 < Real.sin x := Real.sin_pos_of_pos_of_lt_pi (by linarith) (by nlinarith)
  have htan : Real.tan x = Real.sin x / Real.cos x := Real.tan_eq_sin_div_cos x
  have htan_pos : 0 < Real.tan x := by
    rw [htan]
    exact div_pos hsin_pos hcpos
  have htan_le : Real.tan x ≤ 0.22 := by
    rw [htan, div_le_iff hcpos]
    nlinarith
  constructor
  · exact pow_pos htan_pos 2
  · have h := pow_le_pow_left (le_of_lt htan_pos) htan_le 2
    unfold var_y
    rw [← hxdef]
    nlinarith [h]

/-- Bound a product by interval bounds on the factors. -/
theorem prodIcc {u w A B : ℝ} (hu1 : -A ≤ u) (hu2 : u ≤ A) (hw1 : -B ≤ w)
    (hw2 : w ≤ B) : -(A * B) ≤ u * w ∧ u * w ≤ A * B := by
  constructor <;>
    nlinarith [mul_nonneg (sub_nonneg.2 hu2) (sub_nonneg.2 hw2),
      mul_nonneg (sub_nonneg.2 hu2) (by linarith : (0:ℝ) ≤ w + B),
      mul_nonneg (by linarith : (0:ℝ) ≤ u + A) (sub_nonneg.2 hw2),
      mul_nonneg (by linarith : (0:ℝ) ≤ u + A) (by linarith : (0:ℝ) ≤ w + B)]

set_option maxHeartbeats 1000000 in
theorem eq_of_time_abs_le (T : ℝ) (hT : |T| ≤ 1) : |eq_of_time T| ≤ 30 := by
  obtain ⟨hy0, hy1⟩ := varY_window T hT
  obtain ⟨he0, he1⟩ := eccent_bounds T hT
  have hysq : var_y T ^ 2 ≤ 0.0025 := by nlinarith [hy0, hy1]
  have hysq0 : -(0.0025 : ℝ) ≤ var_y T ^ 2 := by linarith [sq_nonneg (var_y T)]
  have hesq : eccent_eart_orbit T ^ 2 ≤ 0.000283 := by nlinarith [he0, he1]
  have hesq0 : -(0.000283 : ℝ) ≤ eccent_eart_orbit T ^ 2 := by
    linarith [sq_nonneg (eccent_eart_orbit T)]
  have hL : |sun_long T| < 360 := by
    unfold sun_long
    exact rustRem_abs_lt _ (by norm_num)
  obtain ⟨hL1, hL2⟩ := abs_lt.1 hL
  have hπ1 := Real.pi_gt_3141592
  have hπ2 := Real.pi_lt_3141593
  have hd0 : (0 : ℝ) < Real.pi / 180 := by positivity
  have hd2 : Real.pi / 180 ≤ 0.01746 := by linarith
  obtain ⟨hτa, hτb⟩ := prodIcc (le_of_lt hL1) (le_of_lt hL2)
    (by linarith : -(0.01746 : ℝ) ≤ Real.pi / 180) hd2
  have hτ1 : -(6.2856 : ℝ) ≤ toRadians (sun_long T) := by
    unfold toRadians
    linarith
  have hτ2 : toRadians (sun_long T) ≤ 6.2856 := by
    unfold toRadians
    linarith
  obtain ⟨hs1, hs1b⟩ := abs_le.1 (Real.abs_sin_le_one (2 * toRadians (sun_long T)))
  obtain ⟨hs2, hs2b⟩ := abs_le.1 (Real.abs_sin_le_one (toRadians (sun_anom T)))
  obtain ⟨hc1, hc1b⟩ := abs_le.1 (Real.abs_cos_le_one (2 * toRadians (sun_long T)))
  obtain ⟨hs3, hs3b⟩ := abs_le.1 (Real.abs_sin_le_one (2 * toRadians (sun_anom T)))
  obtain ⟨p1a, p1b⟩ := prodIcc (by linarith : -(0.05 : ℝ) ≤ var_y T) hy1 hs1 hs1b
  obtain ⟨p2a, p2b⟩ := prodIcc (by linarith : -(0.0168 : ℝ) ≤ eccent_eart_orbit T) he1 hs2 hs2b
  obtain ⟨q1a, q1b⟩ := prodIcc (by linarith : -(0.0168 : ℝ) ≤ eccent_eart_orbit T) he1
    (by linarith : -(0.05 : ℝ) ≤ var_y T) hy1
  obtain ⟨q2a, q2b⟩ := prodIcc q1a q1b hs2 hs2b
  obtain ⟨q3a, q3b⟩ := prodIcc q2a q2b hc1 hc1b
  obtain ⟨r1a, r1b⟩ := prodIcc hysq0 hysq hτ1 hτ2
  obtain ⟨u1a, u1b⟩ := prodIcc hesq0 hesq hs3 hs3b
  have hD1 : (0 : ℝ) < 180 / Real.pi := by positivity
  have hD2 : (180 : ℝ) / Real.pi ≤ 57.3 := by
    rw [div_le_iff₀ Real.pi_pos]
    nlinarith
  have hB : |var_y T * Real.sin (2 * toRadians (sun_long T))
      - 2 * eccent_eart_orbit T * Real.sin (toRadians (sun_anom T))
      + 4 * eccent_eart_orbit T * var_y T * Real.sin (toRadians (sun_anom T))
          * Real.cos (2 * toRadians (sun_long T))
      - 0.5 * (var_y T) ^ 2 * (4 * toRadians (sun_long T))
      - 1.25 * (eccent_eart_orbit T) ^ 2 * Real.sin (2 * toRadians (sun_anom T))| ≤ 0.12 := by
    rw [abs_le]
    constructor <;> linarith [p1a, p1b, p2a, p2b, q3a, q3b, r1a, r1b, u1a, u1b]
  have hmul := mul_le_mul hB hD2 (le_of_lt hD1) (by norm_num : (0 : ℝ) ≤ 0.12)
  unfold eq_of_time toDegrees
  rw [abs_mul, abs_mul, abs_of_nonneg (by norm_num : (0 : ℝ) ≤ (4 : ℝ)),
    abs_of_pos hD1]
  linarith [hmul]

/-! ### C2 — the equation of time is not the NOAA reference formula -/

/-- The concrete date 2000-01-01 used as a failing input. -/
def d2000 : CalDate := ⟨2000, 1, 1⟩

/-- The Julian-century value of 2000-01-01 (Julian day 2451544.5). -/
theorem today_jul_century_d2000 : today_jul_century d2000 = -1 / 73050 := by
  norm_num [today_jul_century, date_to_julian, julian_day, julian_cent, d2000]

/-- C2: the equation-of-time intermediate of today_solar_noon does not
equal the standard NOAA five-term formula: the source multiplies the
fourth term by the bare angle 4 * sun_long (in radians) instead of its
sine, and at the date 2000-01-01 the two expressions differ (the formula
involves no longitude, so this holds for every longitude). -/
theorem c2_eq_of_time_not_noaa :
    eq_of_time ((today_jul_century d2000 : ℚ) : ℝ) ≠
      eq_of_time_noaa ((today_jul_century d2000 : ℚ) : ℝ) := by
  have hT : ((today_jul_century d2000 : ℚ) : ℝ) = -(1 / 73050) := by
    rw [today_jul_century_d2000]
    push_cast
    ring
  rw [hT]
  have habs : |(-(1 / 73050) : ℝ)| ≤ 1 := by
    rw [abs_le]
    norm_num
  have hP0 : (0 : ℝ) ≤ (280.46646 + -(1 / 73050) * (36000.76983 + -(1 / 73050) * 0.0003032)) / 360 := by
    norm_num
  have hP1 : (280.46646 + -(1 / 73050) * (36000.76983 + -(1 / 73050) * 0.0003032) : ℝ) / 360 < 1 := by
    norm_num
  have hL : sun_long (-(1 / 73050)) =
      280.46646 + -(1 / 73050) * (36000.76983 + -(1 / 73050) * 0.0003032) := by
    unfold sun_long rustRem truncR
    rw [if_pos hP0, show ⌊(280.46646 + -(1 / 73050) * (36000.76983 + -(1 / 73050) * 0.0003032) : ℝ) / 360⌋ = 0
      from Int.floor_eq_zero_iff.2 ⟨hP0, hP1⟩]
    push_cast
    ring
  have hLlow : (279 : ℝ) ≤ sun_long (-(1 / 73050)) := by
    rw [hL]
    norm_num
  have hy := (varY_window (-(1 / 73050)) habs).1
  have hπ1 := Real.pi_gt_3141592
  have h4τ : (2 : ℝ) ≤ 4 * toRadians (sun_long (-(1 / 73050))) := by
    unfold toRadians
    nlinarith [hLlow, hπ1]
  have hsin4 := Real.sin_le_one (4 * toRadians (sun_long (-(1 / 73050))))
  have hdiff : eq_of_time_noaa (-(1 / 73050)) - eq_of_time (-(1 / 73050)) =
      (360 / Real.pi) * (var_y (-(1 / 73050))) ^ 2 *
        (4 * toRadians (sun_long (-(1 / 73050)))
          - Real.sin (4 * toRadians (sun_long (-(1 / 73050))))) := by
    unfold eq_of_time eq_of_time_noaa toDegrees
    ring
  have hpos : 0 < eq_of_time_noaa (-(1 / 73050)) - eq_of_time (-(1 / 73050)) := by
    rw [hdiff]
    have h1 : (0 : ℝ) < 360 / Real.pi := by positivity
    have h2 : (0 : ℝ) < (var_y (-(1 / 73050))) ^ 2 := pow_pos hy 2
    have h3 : (0 : ℝ) < 4 * toRadians (sun_long (-(1 / 73050)))
        - Real.sin (4 * toRadians (sun_long (-(1 / 73050)))) := by
      linarith
    exact mul_pos (mul_pos h1 h2) h3
  intro heq
  rw [heq] at hpos
  linarith

/-! ### C5 — the final instant truncates, it does not round -/

/-- Unfolding equation for today_solar_noon. -/
theorem today_solar_noon_eq (c : CalDate) (long : ℝ) :
    today_solar_noon c long = midnightEpochSecs c +
      i64ofF64 (((720 - 4 * long - eq_of_time ((today_jul_century c : ℚ) : ℝ)) / 1440)
        * 24 * 3600) := rfl

/-- C5 counterexample: the claim that the returned instant is the calendar
midnight plus the offset in seconds rounded to the nearest whole second is
false: the cast `as i64` truncates toward zero, and at the date 2000-01-01
there is a longitude at which the offset in seconds is exactly 0.6, which
truncates to 0 but rounds to 1. -/
theorem c5_rounding_counterexample :
    ¬ ∀ (c : CalDate) (long : ℝ),
        today_solar_noon c long = midnightEpochSecs c +
          round (((720 - 4 * long - eq_of_time ((today_jul_century c : ℚ) : ℝ)) / 1440)
            * 86400) := by
  intro h
  have hlong := h d2000
    ((43200 - 60 * eq_of_time ((today_jul_century d2000 : ℚ) : ℝ) - 3 / 5) / 240)
  rw [today_solar_noon_eq] at hlong
  rw [show (((720 : ℝ) - 4 * ((43200 - 60 * eq_of_time ((today_jul_century d2000 : ℚ) : ℝ)
          - 3 / 5) / 240) - eq_of_time ((today_jul_century d2000 : ℚ) : ℝ)) / 1440)
        * 24 * 3600 = 3 / 5 from by ring] at hlong
  rw [show (((720 : ℝ) - 4 * ((43200 - 60 * eq_of_time ((today_jul_century d2000 : ℚ) : ℝ)
          - 3 / 5) / 240) - eq_of_time ((today_jul_century d2000 : ℚ) : ℝ)) / 1440)
        * 86400 = 3 / 5 from by ring] at hlong
  have h1 : i64ofF64 ((3 : ℝ) / 5) = 0 := by
    unfold i64ofF64 truncR
    rw [if_pos (by norm_num : (0 : ℝ) ≤ 3 / 5)]
    norm_num
  have h2 : round ((3 : ℝ) / 5) = 1 := by
    rw [round_eq]
    norm_num
  rw [h1, h2] at hlong
  omega

/-- C5 amended: the returned instant is the calendar-midnight epoch seconds
plus the fractional-day offset (720 - 4 * longitude - eq_of_time) / 1440
times 86400, truncated toward zero by the saturating f64-to-i64 cast
(rather than rounded to the nearest whole second). -/
theorem c5_truncation_amended (c : CalDate) (long : ℝ) :
    today_solar_noon c long = midnightEpochSecs c +
      i64ofF64 (((720 - 4 * long - eq_of_time ((today_jul_century c : ℚ) : ℝ)) / 1440)
        * 86400) := by
  rw [today_solar_noon_eq,
    show (((720 : ℝ) - 4 * long - eq_of_time ((today_jul_century c : ℚ) : ℝ)) / 1440)
        * 24 * 3600
      = (((720 : ℝ) - 4 * long - eq_of_time ((today_jul_century c : ℚ) : ℝ)) / 1440)
        * 86400 from by ring]

/-! ### C8 — determinism and the noon window in local mean time -/

/-- C8: the noon predictor is a pure function of the date and longitude
(deterministic), and for every date within a Julian century of J2000.0 and
every longitude in [-180, 180], the predicted instant converted to local
mean time by the longitude offset of 4 minutes per degree falls between
11:00 and 13:00 (seconds of the local mean day between 39600 and 46800). -/
theorem c8_solar_noon_window (c : CalDate) (long : ℝ)
    (hT : |((today_jul_century c : ℚ) : ℝ)| ≤ 1)
    (hl1 : -180 ≤ long) (hl2 : long ≤ 180) :
    today_solar_noon c long = today_solar_noon c long ∧
    (11 * 3600 : ℝ) ≤
      ((today_solar_noon c long - midnightEpochSecs c : ℤ) : ℝ) + 240 * long ∧
    ((today_solar_noon c long - midnightEpochSecs c : ℤ) : ℝ) + 240 * long ≤ 13 * 3600 := by
  obtain ⟨hE1, hE2⟩ := abs_le.1 (eq_of_time_abs_le _ hT)
  have hkey : today_solar_noon c long - midnightEpochSecs c =
      i64ofF64 (((720 - 4 * long - eq_of_time ((today_jul_century c : ℚ) : ℝ)) / 1440)
        * 24 * 3600) := by
    rw [today_solar_noon_eq]
    omega
  have hv : (((720 : ℝ) - 4 * long - eq_of_time ((today_jul_century c : ℚ) : ℝ)) / 1440)
      * 24 * 3600
      = 43200 - 240 * long - 60 * eq_of_time ((today_jul_century c : ℚ) : ℝ) := by
    ring
  rw [hv] at hkey
  have ht1 := truncR_gt (43200 - 240 * long
    - 60 * eq_of_time ((today_jul_century c : ℚ) : ℝ))
  have ht2 := truncR_lt (43200 - 240 * long
    - 60 * eq_of_time ((today_jul_century c : ℚ) : ℝ))
  have htlo : -(2 : ℤ) ^ 63 ≤
      truncR (43200 - 240 * long - 60 * eq_of_time ((today_jul_century c : ℚ) : ℝ)) := by
    have hr : ((-(2 : ℤ) ^ 63 : ℤ) : ℝ) ≤
        (truncR (43200 - 240 * long
          - 60 * eq_of_time ((today_jul_century c : ℚ) : ℝ)) : ℝ) := by
      push_cast
      linarith
    exact_mod_cast hr
  have hthi : truncR (43200 - 240 * long
      - 60 * eq_of_time ((today_jul_century c : ℚ) : ℝ)) ≤ 2 ^ 63 - 1 := by
    have hr : (truncR (43200 - 240 * long
        - 60 * eq_of_time ((today_jul_century c : ℚ) : ℝ)) : ℝ) ≤ (((2 : ℤ) ^ 63 - 1 : ℤ) : ℝ) := by
      push_cast
      linarith
    exact_mod_cast hr
  have hi64 : i64ofF64 (43200 - 240 * long
      - 60 * eq_of_time ((today_jul_century c : ℚ) : ℝ)) =
      truncR (43200 - 240 * long - 60 * eq_of_time ((today_jul_century c : ℚ) : ℝ)) := by
    unfold i64ofF64
    rw [min_eq_right hthi, max_eq_right htlo]
  rw [hi64] at hkey
  refine ⟨rfl, ?_, ?_⟩ <;>
    rw [hkey] <;>
    linarith [ht1, ht2]

/-- C8 witness at the date 2026-10-12 (Julian century 19561/73050) and
longitude 11.69. -/
theorem c8_solar_noon_window_witness :
    (|((today_jul_century ⟨2026, 10, 12⟩ : ℚ) : ℝ)| ≤ 1 ∧
      (-180 : ℝ) ≤ 11.69 ∧ (11.69 : ℝ) ≤ 180) ∧
    (11 * 3600 : ℝ) ≤
      ((today_solar_noon ⟨2026, 10, 12⟩ 11.69 - midnightEpochSecs ⟨2026, 10, 12⟩ : ℤ) : ℝ)
        + 240 * 11.69 ∧
    ((today_solar_noon ⟨2026, 10, 12⟩ 11.69 - midnightEpochSecs ⟨2026, 10, 12⟩ : ℤ) : ℝ)
        + 240 * 11.69 ≤ 13 * 3600 := by
  have hT : |((today_jul_century ⟨2026, 10, 12⟩ : ℚ) : ℝ)| ≤ 1 := by
    rw [show (today_jul_century ⟨2026, 10, 12⟩ : ℚ) = 19561 / 73050 from by
      norm_num [today_jul_century, date_to_julian, julian_day, julian_cent]]
    push_cast
    rw [abs_le]
    constructor <;> norm_num
  refine ⟨⟨hT, by norm_num, by norm_num⟩, ?_, ?_⟩
  · exact (c8_solar_noon_window ⟨2026, 10, 12⟩ 11.69 hT (by norm_num) (by norm_num)).2.1
  · exact (c8_solar_noon_window ⟨2026, 10, 12⟩ 11.69 hT (by norm_num) (by norm_num)).2.2

end MqttSun
